import Mathlib

/-!
Shallow embedding of the core of the `Stock_list` repository
(`src/client.py`, `src/auth.py`, `src/swing_signal.py`).

Python floats are modelled as exact rationals (`ℚ`); all computations the
claims exercise are sums, differences, products and divisions of small
decimal values, where float and rational arithmetic agree on the compared
outcomes.  Python ints are `ℤ`/`Nat`, Python strings are `List Char`.
-/

namespace StockList

/-- Python slice `xs[-n:]` (for `n = 0`, Python's `xs[-0:]` is the whole
list). -/
def pyTail (n : Nat) (xs : List α) : List α :=
  if n = 0 then xs else xs.drop (xs.length - n)

/-- Python slice `xs[-a:-b]` for positive `a`, `b`: elements from index
`max (len-a) 0` up to (excluding) index `max (len-b) 0`. -/
def pySliceNN (a b : Nat) (xs : List α) : List α :=
  let n := xs.length
  let start := n - min a n
  let stop := n - min b n
  (xs.drop start).take (stop - start)

/-- Python `max(xs)` on a list of floats; the `[]` case is unreachable in
the code paths modelled here (Python would raise). -/
def pyMax : List ℚ → ℚ
  | [] => 0
  | x :: rest => rest.foldl max x

/-- `swing_signal.avg` on a list of floats: arithmetic mean, `0.0` for the
empty list. -/
def avg (values : List ℚ) : ℚ :=
  if values = [] then 0 else values.sum / values.length

/-- `swing_signal.avg` applied to a list of ints (Python's `avg` is one
function over numbers; volumes are ints). -/
def avgInt (values : List ℤ) : ℚ :=
  if values = [] then 0 else (values.sum : ℚ) / values.length

/-- `swing_signal.SignalRow`. -/
structure SignalRow where
  code : String
  name : String
  current_price : ℚ
  retrace_pct : ℚ
  short_ma : ℚ
  long_ma : ℚ
  volume_ratio : ℚ
  pullback_ok : Bool
  rebound_ok : Bool
  signal : Bool
  signal_score : ℚ
deriving DecidableEq, Repr

/-- `swing_signal.evaluate_signal`.  The Python constant `0.98` is
modelled as the rational `98/100`. -/
def evaluate_signal (code name : String) (closes : List ℚ) (volumes : List ℤ)
    (recent_high_bars : Nat) (pullback_min pullback_max min_vol_ratio : ℚ) :
    Option SignalRow :=
  if closes.length < 30 then none else
  let current := closes.getLastD 0
  let high_slice :=
    if recent_high_bars ≤ closes.length then pyTail recent_high_bars closes else closes
  let recent_high := pyMax high_slice
  let retrace := if 0 < recent_high then (recent_high - current) / recent_high * 100 else 0
  let short_ma := avg (pyTail 5 closes)
  let long_ma := avg (pyTail 20 closes)
  let prev5_high := if 6 ≤ closes.length then pyMax (pySliceNN 6 1 closes) else current
  let recent_vol := avgInt (pyTail 5 volumes)
  let prev_vol := avgInt (pySliceNN 25 5 volumes)
  let vol_ratio := if 0 < prev_vol then recent_vol / prev_vol else 0
  let pullback_ok :=
    decide (pullback_min ≤ retrace ∧ retrace ≤ pullback_max) &&
      (decide (0 < long_ma) && decide (long_ma * (98 / 100) ≤ current))
  let rebound_ok :=
    decide (prev5_high ≤ current) && decide (long_ma ≤ short_ma) &&
      decide (min_vol_ratio ≤ vol_ratio)
  let signal := pullback_ok && rebound_ok
  let score : ℚ :=
    (if pullback_ok then 40 else 0) + (if rebound_ok then 40 else 0) +
      min 20 (max 0 ((vol_ratio - 1) * 20))
  some
    { code := code
      name := name
      current_price := current
      retrace_pct := retrace
      short_ma := short_ma
      long_ma := long_ma
      volume_ratio := vol_ratio
      pullback_ok := pullback_ok
      rebound_ok := rebound_ok
      signal := signal
      signal_score := score }

/-- The close series of the spec's end-to-end example:
`[100]*20 + [90,88,87,86,85] + [95,97,99,101,103]`. -/
def exampleCloses : List ℚ :=
  List.replicate 20 100 ++ [90, 88, 87, 86, 85] ++ [95, 97, 99, 101, 103]

/-- The decoded JSON body of a response, restricted to the two top-level
fields the code inspects (`return_code`, `return_msg`). -/
structure Payload where
  return_code : Option ℤ
  return_msg : Option String
deriving DecidableEq, Repr

/-- One HTTP response in a scripted exchange: its status code, the parsed
`Retry-After` header (`none` when absent or empty), and its decoded body. -/
structure HttpResp where
  status : Nat
  retryAfter : Option Nat
  body : Payload
deriving DecidableEq, Repr

/-- Outcome of `KiwoomClient._request`: a returned decoded body, a raised
`httpx.HTTPStatusError` carrying the status, or exhaustion of the scripted
response list (unreachable when the script covers every attempt). -/
inductive ReqResult where
  | ok (body : Payload)
  | raised (status : Nat)
  | noScript
deriving DecidableEq, Repr

/-- The synthetic failure payload built at the end of `_request`'s loop:
`{"return_code": 1, "return_msg": "request failed"}`. -/
def syntheticFailure : Payload :=
  { return_code := some 1, return_msg := some "request failed" }

/-- The retry loop of `KiwoomClient._request`, one iteration per scripted
response; returns the outcome together with the list of sleep durations
taken on the 429 backoff path.  A 2xx status makes `raise_for_status` a
no-op and the body is returned; any other status raises
`HTTPStatusError`, which the `except` swallows unless this is the last
attempt. -/
def requestGo (retry_count : Nat) : List HttpResp → Nat → ReqResult × List Nat
  | resps, attempt =>
    if attempt < retry_count then
      match resps with
      | [] => (.noScript, [])
      | r :: rest =>
        if r.status = 429 ∧ attempt < retry_count - 1 then
          let w := r.retryAfter.getD ((attempt + 1) * 2)
          let rec_result := requestGo retry_count rest (attempt + 1)
          (rec_result.1, w :: rec_result.2)
        else if 200 ≤ r.status ∧ r.status ≤ 299 then
          (.ok r.body, [])
        else if attempt = retry_count - 1 then
          (.raised r.status, [])
        else
          requestGo retry_count rest (attempt + 1)
    else
      (.ok syntheticFailure, [])

/-- `KiwoomClient._request`, over a script of responses (one per attempt
actually made).  Pacing, auth headers and continuation headers do not
affect the control flow modelled here. -/
def KiwoomClient_request (responses : List HttpResp) (retry_count : Nat := 3) :
    ReqResult × List Nat :=
  requestGo retry_count responses 0

/-- A Python value as passed to `client.parse_price`. -/
inductive PyVal where
  | pynone
  | int (n : ℤ)
  | float (q : ℚ)
  | str (s : List Char)
deriving DecidableEq, Repr

/-- Python `str.strip()`: remove leading and trailing whitespace. -/
def pyStrip (cs : List Char) : List Char :=
  ((cs.dropWhile Char.isWhitespace).reverse.dropWhile Char.isWhitespace).reverse

/-- Numeric value of a string of decimal digits. -/
def natOfDigits (cs : List Char) : Nat :=
  cs.foldl (fun a c => a * 10 + (c.toNat - 48)) 0

/-- Python `float(s)` restricted to unsigned decimal literals (an integer
part and/or a fractional part separated by `.`), which are the only
shapes reachable after `parse_price` strips whitespace, commas and
leading signs; anything else raises `ValueError`, modelled as `none`. -/
def pyFloat (cs : List Char) : Option ℚ :=
  match cs.splitOn '.' with
  | [ip] =>
    if ip ≠ [] ∧ ip.all Char.isDigit then some (natOfDigits ip) else none
  | [ip, fp] =>
    if (ip ≠ [] ∨ fp ≠ []) ∧ ip.all Char.isDigit ∧ fp.all Char.isDigit then
      some ((natOfDigits ip : ℚ) + (natOfDigits fp : ℚ) / (10 ^ fp.length))
    else none
  | _ => none

/-- `client.parse_price`: `None` maps to `0.0`, numbers to their absolute
value, and strings are stripped of whitespace, commas and leading `+`/`-`
characters before conversion; an empty cleaned string maps to `0.0`. -/
def parse_price (v : PyVal) : Option ℚ :=
  match v with
  | .pynone => some 0
  | .int n => some |(n : ℚ)|
  | .float q => some |q|
  | .str s =>
    let clean := ((pyStrip s).filter (fun c => c ≠ ',')).dropWhile
      (fun c => c = '+' || c = '-')
    if clean = [] then some 0 else pyFloat clean

/-- Gregorian leap-year test, as used by Python's `datetime`. -/
def isLeap (y : ℤ) : Bool :=
  decide ((y % 4 = 0 ∧ y % 100 ≠ 0) ∨ y % 400 = 0)

/-- Days in a month of the proleptic Gregorian calendar. -/
def daysInMonth (y : ℤ) (m : Nat) : Nat :=
  if m = 2 then (if isLeap y then 29 else 28)
  else if m = 4 ∨ m = 6 ∨ m = 9 ∨ m = 11 then 30
  else 31

/-- Days since 1970-01-01 of a proleptic Gregorian date (standard
civil-calendar day count; all intermediate values are non-negative for
`1 ≤ y`, so the rounding mode of division is immaterial). -/
def daysFromCivil (y : ℤ) (m d : Nat) : ℤ :=
  let yy : ℤ := if m ≤ 2 then y - 1 else y
  let era : ℤ := yy / 400
  let yoe : ℤ := yy - era * 400
  let mp : ℤ := ((m : ℤ) + 9) % 12
  let doy : ℤ := (153 * mp + 2) / 5 + (d : ℤ) - 1
  let doe : ℤ := yoe * 365 + yoe / 4 - yoe / 100 + doy
  era * 146097 + doe - 719468

/-- A timestamp in seconds since the epoch; the scale on which
`datetime` comparison and `timedelta(minutes=1)` are modelled. -/
def toSecs (y : ℤ) (m d h mi s : Nat) : ℤ :=
  daysFromCivil y m d * 86400 + h * 3600 + mi * 60 + s

/-- Decimal value of a digit character. -/
def digitVal (c : Char) : Nat := c.toNat - 48

/-- The matcher for a run of `strptime` fields, each matching one or two
digit characters (two preferred, backtracking to one) subject to the
field's range test, with the whole input consumed — the behavior of
CPython's generated regular expression for `%m%d%H%M%S`. -/
def matchFields : List (Nat → Bool) → List Char → Option (List Nat)
  | [], [] => some []
  | [], _ :: _ => none
  | p :: ps, cs =>
    (match cs with
     | c1 :: c2 :: rest =>
       if c1.isDigit && c2.isDigit && p (10 * digitVal c1 + digitVal c2) then
         (matchFields ps rest).map (fun vs => (10 * digitVal c1 + digitVal c2) :: vs)
       else none
     | _ => none).orElse
    (fun _ =>
      match cs with
      | c1 :: rest =>
        if c1.isDigit && p (digitVal c1) then
          (matchFields ps rest).map (fun vs => digitVal c1 :: vs)
        else none
      | [] => none)

/-- `datetime.strptime(s, "%Y%m%d%H%M%S")` up to field extraction: four
digits of year, then month/day/hour/minute/second with CPython's
per-field ranges (`%d` admits 1–31, `%S` admits 0–61). -/
def parseYmdHMS (cs : List Char) : Option (ℤ × Nat × Nat × Nat × Nat × Nat) :=
  match cs with
  | y1 :: y2 :: y3 :: y4 :: rest =>
    if y1.isDigit && y2.isDigit && y3.isDigit && y4.isDigit then
      let y : ℤ := (1000 * digitVal y1 + 100 * digitVal y2 + 10 * digitVal y3 + digitVal y4 : Nat)
      match matchFields
          [fun v => decide (1 ≤ v ∧ v ≤ 12), fun v => decide (1 ≤ v ∧ v ≤ 31),
           fun v => decide (v ≤ 23), fun v => decide (v ≤ 59), fun v => decide (v ≤ 61)]
          rest with
      | some [m, d, h, mi, s] => some (y, m, d, h, mi, s)
      | _ => none
    else none
  | _ => none

/-- `datetime.strptime(s, "%Y%m%d%H%M%S")` as a timestamp in seconds:
field extraction followed by `datetime` construction, which additionally
requires a year of at least 1, a day valid for the month, and a second
of at most 59; any failure is a `ValueError`, modelled as `none`. -/
def parseExpires (cs : List Char) : Option ℤ :=
  match parseYmdHMS cs with
  | some (y, m, d, h, mi, s) =>
    if 1 ≤ y ∧ d ≤ daysInMonth y m ∧ s ≤ 59 then some (toSecs y m d h mi s) else none
  | none => none

/-- `auth.Token`. -/
structure Token where
  access_token : String
  token_type : String
  expires_dt : List Char
deriving DecidableEq, Repr

/-- `Token.is_expired` evaluated at clock reading `now` (seconds):
missing expiry means never expiring; a parse failure (`ValueError`) also
means never expiring; otherwise expired when `now` has reached one
minute before the expiry instant. -/
def Token.is_expired (t : Token) (now : ℤ) : Bool :=
  if t.expires_dt = [] then false
  else
    match parseExpires t.expires_dt with
    | some e => decide (e - 60 ≤ now)
    | none => false

/-- Whether reading `TokenManager.token` at clock reading `now` performs
`_refresh_token`: on the first call (no cached token) or when the cached
token is expired. -/
def refreshNeeded (cached : Option Token) (now : ℤ) : Bool :=
  match cached with
  | none => true
  | some t => t.is_expired now

/-- The sort key of `swing_signal.main`:
`lambda x: (x.signal, x.signal_score, x.volume_ratio)`. -/
def sortKey (r : SignalRow) : Bool × ℚ × ℚ :=
  (r.signal, r.signal_score, r.volume_ratio)

/-- Python's lexicographic comparison of `(bool, float, float)` tuples
(`False < True`). -/
def tupleLe (x y : Bool × ℚ × ℚ) : Prop :=
  x.1 < y.1 ∨ (x.1 = y.1 ∧ (x.2.1 < y.2.1 ∨ (x.2.1 = y.2.1 ∧ x.2.2 ≤ y.2.2)))

instance (x y : Bool × ℚ × ℚ) : Decidable (tupleLe x y) := by
  unfold tupleLe; exact inferInstance

theorem tupleLe_total (x y : Bool × ℚ × ℚ) : tupleLe x y ∨ tupleLe y x := by
  obtain ⟨a1, b1, c1⟩ := x
  obtain ⟨a2, b2, c2⟩ := y
  simp only [tupleLe]
  rcases lt_trichotomy a1 a2 with h | rfl | h
  · exact Or.inl (Or.inl h)
  · rcases lt_trichotomy b1 b2 with h | rfl | h
    · exact Or.inl (Or.inr ⟨rfl, Or.inl h⟩)
    · rcases le_total c1 c2 with h | h
      · exact Or.inl (Or.inr ⟨rfl, Or.inr ⟨rfl, h⟩⟩)
      · exact Or.inr (Or.inr ⟨rfl, Or.inr ⟨rfl, h⟩⟩)
    · exact Or.inr (Or.inr ⟨rfl, Or.inl h⟩)
  · exact Or.inr (Or.inl h)

theorem tupleLe_trans (x y z : Bool × ℚ × ℚ) (h1 : tupleLe x y) (h2 : tupleLe y z) :
    tupleLe x z := by
  obtain ⟨a1, b1, c1⟩ := x
  obtain ⟨a2, b2, c2⟩ := y
  obtain ⟨a3, b3, c3⟩ := z
  simp only [tupleLe] at h1 h2 ⊢
  rcases h1 with h1 | ⟨rfl, h1⟩
  · rcases h2 with h2 | ⟨rfl, h2⟩
    · exact Or.inl (lt_trans h1 h2)
    · exact Or.inl h1
  · rcases h2 with h2 | ⟨rfl, h2⟩
    · exact Or.inl h2
    · refine Or.inr ⟨rfl, ?_⟩
      rcases h1 with h1 | ⟨rfl, h1⟩
      · rcases h2 with h2 | ⟨rfl, h2⟩
        · exact Or.inl (lt_trans h1 h2)
        · exact Or.inl h1
      · rcases h2 with h2 | ⟨rfl, h2⟩
        · exact Or.inl h2
        · exact Or.inr ⟨rfl, le_trans h1 h2⟩

/-- `a` may precede `b` in the output of
`rows.sort(key=..., reverse=True)`: `a`'s key is lexicographically at
least `b`'s. -/
def rowOrder (a b : SignalRow) : Prop :=
  tupleLe (sortKey b) (sortKey a)

instance : DecidableRel rowOrder := fun a b =>
  inferInstanceAs (Decidable (tupleLe (sortKey b) (sortKey a)))

instance : IsTotal SignalRow rowOrder :=
  ⟨fun a b => tupleLe_total (sortKey b) (sortKey a)⟩

instance : IsTrans SignalRow rowOrder :=
  ⟨fun a b c h1 h2 => tupleLe_trans (sortKey c) (sortKey b) (sortKey a) h2 h1⟩

/-- `rows.sort(key=lambda x: (x.signal, x.signal_score, x.volume_ratio),
reverse=True)` in `swing_signal.main`, modelled as a stable sort by the
descending key order. -/
def sortRows (rows : List SignalRow) : List SignalRow :=
  List.insertionSort rowOrder rows

/-- A scripted 429 response without a `Retry-After` header. -/
def resp429 : HttpResp :=
  { status := 429, retryAfter := none, body := { return_code := some 1, return_msg := some "limit" } }

/-- A scripted successful response. -/
def resp200 : HttpResp :=
  { status := 200, retryAfter := none, body := { return_code := some 0, return_msg := some "ok" } }

/-- A scripted server-error response. -/
def resp500 : HttpResp :=
  { status := 500, retryAfter := none, body := { return_code := none, return_msg := none } }

/-- Thirty constant closes. -/
def c4Closes : List ℚ := List.replicate 30 100

/-- Volumes whose trailing-20 window (`[-25:-5]`) is all ones but whose
last five bars are zero. -/
def c4Volumes : List ℤ := List.replicate 25 1 ++ List.replicate 5 0

/-- Thirty constant volumes. -/
def c4WitVolumes : List ℤ := List.replicate 30 2

/-- The row `evaluate_signal` produces on `c4Closes`/`c4WitVolumes` with
default thresholds. -/
def c4WitRow : SignalRow :=
  { code := "X", name := "X", current_price := 100, retrace_pct := 0, short_ma := 100,
    long_ma := 100, volume_ratio := 1, pullback_ok := false, rebound_ok := true,
    signal := false, signal_score := 40 }

/-- Closes whose last twenty entries are zero, so `long_ma = 0`. -/
def c5Closes : List ℚ := List.replicate 10 100 ++ List.replicate 20 0

/-- A signalling row with a high score. -/
def sigRowA : SignalRow :=
  { code := "a", name := "a", current_price := 0, retrace_pct := 0, short_ma := 0,
    long_ma := 0, volume_ratio := 5, pullback_ok := true, rebound_ok := true,
    signal := true, signal_score := 90 }

/-- A signalling row with a low score. -/
def sigRowB : SignalRow :=
  { code := "b", name := "b", current_price := 0, retrace_pct := 0, short_ma := 0,
    long_ma := 0, volume_ratio := 1, pullback_ok := true, rebound_ok := true,
    signal := true, signal_score := 10 }

/-- `pyTail` yields a sublist. -/
theorem pyTail_sublist (n : Nat) (xs : List α) : (pyTail n xs).Sublist xs := by
  unfold pyTail
  split
  · exact List.Sublist.refl xs
  · exact List.drop_sublist _ xs

/-- `pySliceNN` yields a sublist. -/
theorem pySliceNN_sublist (a b : Nat) (xs : List α) : (pySliceNN a b xs).Sublist xs := by
  unfold pySliceNN
  exact (List.take_sublist _ _).trans (List.drop_sublist _ xs)

/-- `avg` of a list of non-negative ints is non-negative. -/
theorem avgInt_nonneg {l : List ℤ} (h : ∀ v ∈ l, 0 ≤ v) : 0 ≤ avgInt l := by
  unfold avgInt
  split
  · exact le_refl 0
  · exact div_nonneg (by exact_mod_cast List.sum_nonneg h) (Nat.cast_nonneg _)

/-- `avg` of a list of ints vanishes exactly when its sum does. -/
theorem avgInt_eq_zero_iff {l : List ℤ} : avgInt l = 0 ↔ l.sum = 0 := by
  unfold avgInt
  split
  · simp [*]
  · rw [div_eq_zero_iff]
    constructor
    · rintro (h | h)
      · exact_mod_cast h
      · exact absurd (List.length_eq_zero.mp (by exact_mod_cast h)) (by assumption)
    · intro h
      exact Or.inl (by exact_mod_cast h)

/-- Claim C6. -/
theorem C6_token_freshness :
    (∀ (now e : ℤ) (t : Token), parseExpires t.expires_dt = some e → e = now + 30 →
      t.is_expired now = true) ∧
    (∀ (now e : ℤ) (t : Token), parseExpires t.expires_dt = some e → e = now + 120 →
      t.is_expired now = false) ∧
    (∀ (now : ℤ) (t : Token), t.expires_dt = [] → t.is_expired now = false) ∧
    (∀ (now : ℤ) (t : Token), refreshNeeded (some t) now = t.is_expired now) := by
  refine ⟨?_, ?_, ?_, ?_⟩
  · intro now e t hp he
    unfold Token.is_expired
    split
    · rename_i hempty
      rw [hempty] at hp
      simp [parseExpires, parseYmdHMS] at hp
    · rw [hp]
      subst he
      simp only [decide_eq_true_eq]
      omega
  · intro now e t hp he
    unfold Token.is_expired
    split
    · rfl
    · rw [hp]
      subst he
      simp only [decide_eq_false_iff_not]
      omega
  · intro now t h
    unfold Token.is_expired
    rw [if_pos h]
  · intro now t
    rfl

theorem C6_witness :
    (Token.mk "tok" "Bearer" "20250102030405".toList).is_expired (toSecs 2025 1 2 3 4 5 - 30) = true ∧
    (Token.mk "tok" "Bearer" "20250102030405".toList).is_expired (toSecs 2025 1 2 3 4 5 - 120) = false ∧
    (Token.mk "tok" "Bearer" []).is_expired 0 = false ∧
    refreshNeeded (some (Token.mk "tok" "Bearer" [])) 0 = (Token.mk "tok" "Bearer" []).is_expired 0 :=
  ⟨C6_token_freshness.1 _ (toSecs 2025 1 2 3 4 5) _ (by decide) (by decide),
   C6_token_freshness.2.1 _ (toSecs 2025 1 2 3 4 5) _ (by decide) (by decide),
   C6_token_freshness.2.2.1 0 _ rfl,
   C6_token_freshness.2.2.2 0 _⟩

/-- Claim C10. -/
theorem C10_malformed_expiry (now : ℤ) (t : Token) (hne : t.expires_dt ≠ [])
    (hp : parseExpires t.expires_dt = none) : t.is_expired now = false := by
  unfold Token.is_expired
  rw [if_neg hne, hp]

theorem C10_witness :
    (Token.mk "tok" "Bearer" "hello".toList).is_expired 0 = false :=
  C10_malformed_expiry 0 _ (by decide) (by decide)

/-- helper -/
theorem pyFloat_nonneg {cs : List Char} {q : ℚ} (h : pyFloat cs = some q) : 0 ≤ q := by
  unfold pyFloat at h
  split at h
  · split at h
    · injection h with h
      subst h
      positivity
    · exact absurd h (by simp)
  · split at h
    · injection h with h
      subst h
      positivity
    · exact absurd h (by simp)
  · exact absurd h (by simp)

/-- Claim C9. -/
theorem C9_parse_price :
    (parse_price (PyVal.str "1,234".toList) = some 1234 ∧
     parse_price (PyVal.str "-1,234".toList) = some 1234 ∧
     parse_price PyVal.pynone = some 0) ∧
    (∀ (v : PyVal) (q : ℚ), parse_price v = some q → 0 ≤ q) := by
  constructor
  · exact ⟨by decide, by decide, by decide⟩
  · intro v q h
    cases v with
    | pynone => injection h with h; subst h; exact le_refl 0
    | int n => injection h with h; subst h; exact abs_nonneg _
    | float x => injection h with h; subst h; exact abs_nonneg _
    | str s =>
      simp only [parse_price] at h
      split at h
      · injection h with h; subst h; exact le_refl 0
      · exact pyFloat_nonneg h

theorem C9_witness : 0 ≤ (1234 : ℚ) :=
  C9_parse_price.2 (PyVal.str "1,234".toList) 1234 (by decide)

/-- Claim C8. -/
theorem C8_signal_sorts_first (rows : List SignalRow)
    (i j : Fin (sortRows rows).length) (hij : i < j)
    (hj : ((sortRows rows).get j).signal = true) :
    ((sortRows rows).get i).signal = true := by
  have hs : List.Sorted rowOrder (sortRows rows) :=
    List.sorted_insertionSort rowOrder rows
  have hr : rowOrder ((sortRows rows).get i) ((sortRows rows).get j) :=
    hs.rel_get_of_lt hij
  by_contra hfalse
  rw [Bool.not_eq_true] at hfalse
  unfold rowOrder tupleLe sortKey at hr
  simp only [hj, hfalse] at hr
  simp [Bool.lt_iff] at hr

theorem C8_witness :
    ((sortRows [sigRowA, sigRowB]).get ⟨0, by decide⟩).signal = true :=
  C8_signal_sorts_first [sigRowA, sigRowB] ⟨0, by decide⟩ ⟨1, by decide⟩
    (by decide) (by decide)

/-- Claim C1 counterexample. -/
theorem C1_counterexample :
    (KiwoomClient_request [resp429, resp429, resp429] 3).1 = ReqResult.raised 429 ∧
    ∀ p : Payload, (KiwoomClient_request [resp429, resp429, resp429] 3).1 ≠ ReqResult.ok p := by
  refine ⟨by decide, ?_⟩
  intro p h
  have h0 : (KiwoomClient_request [resp429, resp429, resp429] 3).1 = ReqResult.raised 429 := by
    decide
  rw [h0] at h
  exact ReqResult.noConfusion h

/-- Claim C1 amended. -/
theorem C1_retry_behavior :
    (∀ r1 r2 r3 : HttpResp, r1.status = 429 → r2.status = 429 → r3.status = 429 →
      KiwoomClient_request [r1, r2, r3] 3 =
        (ReqResult.raised 429, [r1.retryAfter.getD 2, r2.retryAfter.getD 4])) ∧
    (∀ r1 r2 r3 : HttpResp, r1.status = 429 → r2.status = 429 →
      200 ≤ r3.status → r3.status ≤ 299 →
      KiwoomClient_request [r1, r2, r3] 3 =
        (ReqResult.ok r3.body, [r1.retryAfter.getD 2, r2.retryAfter.getD 4])) := by
  constructor
  · intro r1 r2 r3 h1 h2 h3
    simp [KiwoomClient_request, requestGo, h1, h2, h3]
  · intro r1 r2 r3 h1 h2 h3a h3b
    simp [KiwoomClient_request, requestGo, h1, h2, h3a, h3b]

theorem C1_witness :
    KiwoomClient_request [resp429, resp429, resp429] 3 = (ReqResult.raised 429, [2, 4]) ∧
    KiwoomClient_request [resp429, resp429, resp200] 3 = (ReqResult.ok resp200.body, [2, 4]) :=
  ⟨C1_retry_behavior.1 resp429 resp429 resp429 rfl rfl rfl,
   C1_retry_behavior.2 resp429 resp429 resp200 rfl rfl (by decide) (by decide)⟩

/-- Claim C3 counterexample. -/
theorem C3_counterexample :
    KiwoomClient_request [resp500, resp200] 3 = (ReqResult.ok resp200.body, []) ∧
    (KiwoomClient_request [resp500, resp200] 3).1 ≠ ReqResult.raised 500 := by
  decide

/-- Claim C3 amended. -/
theorem C3_non429_error_retry :
    (∀ (r : HttpResp) (rest : List HttpResp) (rc attempt : Nat), attempt < rc - 1 →
      ¬(200 ≤ r.status ∧ r.status ≤ 299) → r.status ≠ 429 →
      requestGo rc (r :: rest) attempt = requestGo rc rest (attempt + 1)) ∧
    (∀ (r : HttpResp) (rest : List HttpResp) (rc attempt : Nat), attempt < rc →
      attempt = rc - 1 → ¬(200 ≤ r.status ∧ r.status ≤ 299) →
      requestGo rc (r :: rest) attempt = (ReqResult.raised r.status, [])) := by
  constructor
  · intro r rest rc attempt hlt h2xx h429
    conv_lhs => rw [requestGo]
    rw [if_pos (by omega)]
    rw [if_neg (by tauto), if_neg h2xx, if_neg (by omega)]
  · intro r rest rc attempt hlt hlast h2xx
    conv_lhs => rw [requestGo]
    rw [if_pos hlt]
    rw [if_neg (by omega), if_neg h2xx, if_pos hlast]

theorem C3_witness :
    requestGo 3 [resp500, resp200] 0 = requestGo 3 [resp200] 1 ∧
    requestGo 3 [resp500] 2 = (ReqResult.raised 500, []) :=
  ⟨C3_non429_error_retry.1 resp500 [resp200] 3 0 (by decide) (by decide) (by decide),
   C3_non429_error_retry.2 resp500 [] 3 2 (by decide) (by decide) (by decide)⟩

/-- bounds helper -/
theorem score_formula_bounds (pb rb : Bool) (x : ℚ) :
    0 ≤ (if pb then (40:ℚ) else 0) + (if rb then (40:ℚ) else 0) + min 20 (max 0 x) ∧
      (if pb then (40:ℚ) else 0) + (if rb then (40:ℚ) else 0) + min 20 (max 0 x) ≤ 100 := by
  have h1 : (0:ℚ) ≤ (if pb then (40:ℚ) else 0) ∧ (if pb then (40:ℚ) else 0) ≤ 40 := by
    split <;> norm_num
  have h2 : (0:ℚ) ≤ (if rb then (40:ℚ) else 0) ∧ (if rb then (40:ℚ) else 0) ≤ 40 := by
    split <;> norm_num
  have h3 : (0:ℚ) ≤ min 20 (max 0 x) := le_min (by norm_num) (le_max_left 0 x)
  have h4 : min 20 (max 0 x) ≤ 20 := min_le_left _ _
  constructor
  · linarith [h1.1, h2.1]
  · linarith [h1.2, h2.2]

/-- Claim C7. -/
theorem C7_score (code name : String) (closes : List ℚ) (volumes : List ℤ)
    (recent_high_bars : Nat) (pullback_min pullback_max min_vol_ratio : ℚ) (r : SignalRow)
    (h : evaluate_signal code name closes volumes recent_high_bars
      pullback_min pullback_max min_vol_ratio = some r) :
    r.signal_score =
      (if r.pullback_ok then (40:ℚ) else 0) + (if r.rebound_ok then (40:ℚ) else 0) +
        min 20 (max 0 ((r.volume_ratio - 1) * 20)) ∧
    0 ≤ r.signal_score ∧ r.signal_score ≤ 100 := by
  simp only [evaluate_signal] at h
  split at h
  · exact Option.noConfusion h
  · injection h with h
    subst h
    exact ⟨rfl, (score_formula_bounds _ _ _).1, (score_formula_bounds _ _ _).2⟩

/-- Claim C5 amended. -/
theorem C5_pullback_iff (code name : String) (closes : List ℚ) (volumes : List ℤ)
    (recent_high_bars : Nat) (pullback_min pullback_max min_vol_ratio : ℚ) (r : SignalRow)
    (h : evaluate_signal code name closes volumes recent_high_bars
      pullback_min pullback_max min_vol_ratio = some r) :
    r.pullback_ok = true ↔
      pullback_min ≤ r.retrace_pct ∧ r.retrace_pct ≤ pullback_max ∧
        0 < r.long_ma ∧ r.long_ma * (98 / 100) ≤ r.current_price := by
  simp only [evaluate_signal] at h
  split at h
  · exact Option.noConfusion h
  · injection h with h
    subst h
    simp only [Bool.and_eq_true, decide_eq_true_eq, and_assoc]

/-- Claim C4 amended. -/
theorem C4_vol_ratio (code name : String) (closes : List ℚ) (volumes : List ℤ)
    (recent_high_bars : Nat) (pullback_min pullback_max min_vol_ratio : ℚ) (r : SignalRow)
    (hvol : ∀ v ∈ volumes, 0 ≤ v)
    (h : evaluate_signal code name closes volumes recent_high_bars
      pullback_min pullback_max min_vol_ratio = some r) :
    0 ≤ r.volume_ratio ∧
      (r.volume_ratio = 0 ↔
        (pySliceNN 25 5 volumes).sum = 0 ∨ (pyTail 5 volumes).sum = 0) := by
  have hApos : 0 ≤ avgInt (pyTail 5 volumes) :=
    avgInt_nonneg fun v hv => hvol v ((pyTail_sublist 5 volumes).subset hv)
  have hBpos : 0 ≤ avgInt (pySliceNN 25 5 volumes) :=
    avgInt_nonneg fun v hv => hvol v ((pySliceNN_sublist 25 5 volumes).subset hv)
  simp only [evaluate_signal] at h
  split at h
  · exact Option.noConfusion h
  · injection h with h
    subst h
    dsimp only
    constructor
    · split
      · exact div_nonneg hApos (le_of_lt (by assumption))
      · exact le_refl 0
    · split
      · rename_i hpos
        have hBne : avgInt (pySliceNN 25 5 volumes) ≠ 0 := ne_of_gt hpos
        have hslice : (pySliceNN 25 5 volumes).sum ≠ 0 := fun h0 =>
          hBne (avgInt_eq_zero_iff.mpr h0)
        rw [div_eq_zero_iff, or_iff_left hBne, avgInt_eq_zero_iff, or_iff_right hslice]
      · rename_i hnpos
        have hB0 : avgInt (pySliceNN 25 5 volumes) = 0 := le_antisymm (not_lt.mp hnpos) hBpos
        simp [avgInt_eq_zero_iff.mp hB0]

unseal Rat.add Rat.mul Rat.sub Rat.inv in
set_option maxRecDepth 40000 in
/-- Claim C2 counterexample. -/
theorem C2_counterexample :
    (evaluate_signal "A" "A" exampleCloses (List.replicate 30 1) 120 3 15 1).map
      (fun r => (r.pullback_ok, r.rebound_ok, r.signal)) ≠ some (true, true, true) := by
  decide

unseal Rat.add Rat.mul Rat.sub Rat.inv in
set_option maxRecDepth 40000 in
/-- Claim C2 amended. -/
theorem C2_example_outcome :
    (evaluate_signal "A" "A" exampleCloses (List.replicate 30 1) 120 3 15 1).map
      (fun r => (r.pullback_ok, r.rebound_ok, r.signal, r.retrace_pct)) =
      some (false, true, false, 0) := by
  decide

unseal Rat.add Rat.mul Rat.sub Rat.inv in
set_option maxRecDepth 40000 in
/-- Claim C4 counterexample. -/
theorem C4_counterexample :
    (evaluate_signal "X" "X" c4Closes c4Volumes 120 3 15 1).map SignalRow.volume_ratio =
      some 0 ∧ (pySliceNN 25 5 c4Volumes).sum ≠ 0 := by
  decide

unseal Rat.add Rat.mul Rat.sub Rat.inv in
set_option maxRecDepth 40000 in
theorem C4_witness :
    0 ≤ c4WitRow.volume_ratio ∧
      (c4WitRow.volume_ratio = 0 ↔
        (pySliceNN 25 5 c4WitVolumes).sum = 0 ∨ (pyTail 5 c4WitVolumes).sum = 0) :=
  C4_vol_ratio "X" "X" c4Closes c4WitVolumes 120 3 15 1 c4WitRow (by decide) (by decide)

unseal Rat.add Rat.mul Rat.sub Rat.inv in
set_option maxRecDepth 40000 in
/-- Claim C5 counterexample. -/
theorem C5_counterexample :
    (evaluate_signal "X" "X" c5Closes (List.replicate 30 1) 120 50 150 1).map
      (fun r => (r.pullback_ok,
        decide (50 ≤ r.retrace_pct ∧ r.retrace_pct ≤ 150 ∧
          r.long_ma * (98 / 100) ≤ r.current_price))) = some (false, true) := by
  decide

unseal Rat.add Rat.mul Rat.sub Rat.inv in
set_option maxRecDepth 40000 in
theorem C5_witness :
    c4WitRow.pullback_ok = true ↔
      (3:ℚ) ≤ c4WitRow.retrace_pct ∧ c4WitRow.retrace_pct ≤ 15 ∧
        0 < c4WitRow.long_ma ∧ c4WitRow.long_ma * (98 / 100) ≤ c4WitRow.current_price :=
  C5_pullback_iff "X" "X" c4Closes c4WitVolumes 120 3 15 1 c4WitRow (by decide)

unseal Rat.add Rat.mul Rat.sub Rat.inv in
set_option maxRecDepth 40000 in
theorem C7_witness :
    c4WitRow.signal_score =
      (if c4WitRow.pullback_ok then (40:ℚ) else 0) +
        (if c4WitRow.rebound_ok then (40:ℚ) else 0) +
        min 20 (max 0 ((c4WitRow.volume_ratio - 1) * 20)) ∧
    0 ≤ c4WitRow.signal_score ∧ c4WitRow.signal_score ≤ 100 :=
  C7_score "X" "X" c4Closes c4WitVolumes 120 3 15 1 c4WitRow (by decide)

end StockList
